import Mathlib

/-!
Verification development for the vscode-ios extension core: a shallow
embedding of the `ServerConnection` request correlator (sendMessage,
handleServerMessage, the request timeout, handleDisconnection) and of the
`HotReloadService` reload orchestrator (change queue, change analysis,
strategy selection, the reload cycle, the build cache and configuration
merge), together with theorems settling the specification claims.

JavaScript `Map` objects are embedded as insertion-ordered association
lists: `set` on an existing key replaces its value in place (keeping the
key's original iteration position, as `Map.prototype.set` does), and `set`
on a fresh key appends it.
-/

namespace IosVSCode

/-- `Map.prototype.set`: replace in place if the key is present, else append. -/
def mapSet {β : Type} : List (String × β) → String → β → List (String × β)
  | [], k, v => [(k, v)]
  | (k1, v1) :: rest, k, v =>
    if k1 = k then (k, v) :: rest else (k1, v1) :: mapSet rest k v

/-- `Map.prototype.get` (as an `Option`). -/
def mapLookup {β : Type} : List (String × β) → String → Option β
  | [], _ => none
  | (k1, v1) :: rest, k => if k1 = k then some v1 else mapLookup rest k

/-- `Map.prototype.delete`: removes the entry for the key, if present. -/
def mapDelete {β : Type} : List (String × β) → String → List (String × β)
  | [], _ => []
  | (k1, v1) :: rest, k =>
    if k1 = k then rest else (k1, v1) :: mapDelete rest k

theorem mapLookup_mapSet_self {β : Type} (m : List (String × β)) (k : String) (v : β) :
    mapLookup (mapSet m k v) k = some v := by
  induction m with
  | nil => simp [mapSet, mapLookup]
  | cons hd tl ih =>
    obtain ⟨k1, v1⟩ := hd
    by_cases h : k1 = k
    · simp [mapSet, h, mapLookup]
    · simp [mapSet, h, mapLookup, ih]

theorem mapLookup_mapSet_ne {β : Type} (m : List (String × β)) (k k2 : String) (v : β)
    (h : k ≠ k2) : mapLookup (mapSet m k v) k2 = mapLookup m k2 := by
  induction m with
  | nil => simp [mapSet, mapLookup, h]
  | cons hd tl ih =>
    obtain ⟨k1, v1⟩ := hd
    by_cases h1 : k1 = k
    · subst h1
      simp [mapSet, mapLookup, h]
    · simp [mapSet, h1, mapLookup, ih]

theorem fst_mem_of_mem_mapSet {β : Type} (m : List (String × β)) (k : String) (v : β)
    (p : String × β) (hp : p ∈ mapSet m k v) : p.1 ∈ m.map Prod.fst ∨ p.1 = k := by
  induction m with
  | nil =>
    simp [mapSet] at hp
    right
    rw [hp]
  | cons hd tl ih =>
    obtain ⟨k1, v1⟩ := hd
    by_cases h1 : k1 = k
    · subst h1
      simp only [mapSet, if_pos rfl] at hp
      rcases List.mem_cons.mp hp with h2 | h2
      · right
        rw [h2]
      · left
        simp only [List.map_cons]
        exact List.mem_cons_of_mem _ (List.mem_map_of_mem _ h2)
    · simp only [mapSet, if_neg h1] at hp
      rcases List.mem_cons.mp hp with h2 | h2
      · left
        rw [h2]
        simp
      · rcases ih h2 with h3 | h3
        · left
          simp only [List.map_cons]
          exact List.mem_cons_of_mem _ h3
        · right
          exact h3

theorem mapSet_keys_nodup {β : Type} (m : List (String × β)) (k : String) (v : β)
    (h : (m.map Prod.fst).Nodup) : ((mapSet m k v).map Prod.fst).Nodup := by
  induction m with
  | nil => simp [mapSet]
  | cons hd tl ih =>
    obtain ⟨k1, v1⟩ := hd
    simp only [List.map_cons, List.nodup_cons] at h
    by_cases h1 : k1 = k
    · subst h1
      simp only [mapSet, eq_self_iff_true, if_true, List.map_cons, List.nodup_cons]
      exact h
    · simp only [mapSet, if_neg h1, List.map_cons, List.nodup_cons]
      refine ⟨?_, ih h.2⟩
      intro hmem
      rcases List.mem_map.mp hmem with ⟨p, hmem2, hk2⟩
      rcases fst_mem_of_mem_mapSet tl k v p hmem2 with h3 | h3
      · rw [hk2] at h3
        exact h.1 h3
      · rw [hk2] at h3
        exact h1 h3

theorem mapLookup_eq_none_of_not_mem {β : Type} (m : List (String × β)) (k : String)
    (h : k ∉ m.map Prod.fst) : mapLookup m k = none := by
  induction m with
  | nil => simp [mapLookup]
  | cons hd tl ih =>
    obtain ⟨k1, v1⟩ := hd
    simp only [List.map_cons, List.mem_cons] at h
    push_neg at h
    simp only [mapLookup, if_neg (fun hh : k1 = k => h.1 hh.symm)]
    exact ih h.2

theorem mem_keys_of_mapLookup_isSome {β : Type} (m : List (String × β)) (k : String)
    (h : (mapLookup m k).isSome) : k ∈ m.map Prod.fst := by
  by_contra hcon
  rw [mapLookup_eq_none_of_not_mem m k hcon] at h
  simp at h

theorem filter_eq_nil_of_not_mem_keys {β : Type} (m : List (String × β)) (k : String)
    (h : k ∉ m.map Prod.fst) :
    m.filter (fun e => decide (e.1 = k)) = [] := by
  induction m with
  | nil => simp
  | cons hd tl ih =>
    obtain ⟨k1, v1⟩ := hd
    simp only [List.map_cons, List.mem_cons] at h
    push_neg at h
    rw [List.filter_cons]
    simp only [decide_eq_true_eq]
    rw [if_neg (fun hh : (k1, v1).1 = k => h.1 hh.symm)]
    exact ih h.2

/-- With duplicate-free keys, after `mapSet m k v` the entries for key `k`
are exactly the singleton `[(k, v)]`. -/
theorem filter_mapSet {β : Type} (m : List (String × β)) (k : String) (v : β)
    (h : (m.map Prod.fst).Nodup) :
    (mapSet m k v).filter (fun e => decide (e.1 = k)) = [(k, v)] := by
  induction m with
  | nil => simp [mapSet]
  | cons hd tl ih =>
    obtain ⟨k1, v1⟩ := hd
    simp only [List.map_cons, List.nodup_cons] at h
    by_cases h1 : k1 = k
    · subst h1
      simp only [mapSet, eq_self_iff_true, if_true]
      rw [List.filter_cons]
      simp only [decide_eq_true_eq, eq_self_iff_true, if_true]
      rw [filter_eq_nil_of_not_mem_keys tl k1 h.1]
    · simp only [mapSet, if_neg h1]
      rw [List.filter_cons]
      simp only [decide_eq_true_eq]
      rw [if_neg (by simpa using h1)]
      exact ih h.2

theorem mapLookup_mapDelete_self {β : Type} (m : List (String × β)) (k : String)
    (h : (m.map Prod.fst).Nodup) : mapLookup (mapDelete m k) k = none := by
  induction m with
  | nil => simp [mapDelete, mapLookup]
  | cons hd tl ih =>
    obtain ⟨k1, v1⟩ := hd
    simp only [List.map_cons, List.nodup_cons] at h
    by_cases h1 : k1 = k
    · subst h1
      simp only [mapDelete, if_pos rfl]
      exact mapLookup_eq_none_of_not_mem tl k1 h.1
    · simp only [mapDelete, if_neg h1, mapLookup, if_neg h1]
      exact ih h.2

/-- Substring check on character lists: does the text start with the pattern? -/
def charsStart : List Char → List Char → Bool
  | [], _ => true
  | _ :: _, [] => false
  | c :: ps, d :: ts => c = d && charsStart ps ts

/-- Substring check on character lists: does the pattern occur anywhere? -/
def charsContain : List Char → List Char → Bool
  | pat, [] => pat.isEmpty
  | pat, d :: ts => charsStart pat (d :: ts) || charsContain pat ts

/-- JavaScript `String.prototype.includes`. -/
def strContains (s pat : String) : Bool :=
  charsContain pat.toList s.toList

/-!
## ServerConnection (request correlator)

Embedding of `ServerConnection.sendMessage`, `handleServerMessage`, the
per-request timeout callback and `handleDisconnection`. A pending request
is keyed by its correlation id; its value records the deadline registered
for it (`now + 30000`). The resolve/reject closures of the underlying
promise are modelled by the `MessageAction` an event returns: an event
settles a request exactly when it returns `.settled`. `connected` models
`websocket.readyState === OPEN`, the guard `sendMessage` actually checks.
-/

/-- One entry of `pendingRequests`: the deadline its 30-second timer was set for. -/
structure PendingEntry where
  deadline : Nat
deriving DecidableEq, Repr

/-- The connection state visible to the correlator. -/
structure ConnState where
  connected : Bool
  pending : List (String × PendingEntry)
deriving DecidableEq, Repr

/-- The wire message envelope `{ type, data, id? }`, with the payload kept
as an opaque string blob (`data.message` of an error payload is the blob). -/
structure ServerMessage where
  type : String
  data : String
  id : Option String
deriving DecidableEq, Repr

/-- How a pending request's promise is settled. -/
inductive Settlement where
  | resolvedData (d : String)
  | rejectedRemote (m : String)
  | rejectedTimeout
  | rejectedClosed
deriving DecidableEq, Repr

/-- What an inbound event did: settled a pending request, dispatched to a
registered push handler, was logged as unhandled, or (for a timer whose
request was already settled and whose timeout had been cleared) nothing. -/
inductive MessageAction where
  | settled (id : String) (s : Settlement)
  | pushHandled (t : String)
  | unhandledLogged (t : String)
  | timerNoop
deriving DecidableEq, Repr

/-- Outcome of a `sendMessage` call as seen by its caller before resolution. -/
inductive SendOutcome where
  | sent
  | failedNotConnected
  | failedSendError
deriving DecidableEq, Repr

/-- The fixed 30-second request timeout of `sendMessage`. -/
def requestTimeoutMs : Nat := 30000

/-- `ServerConnection.sendMessage`: rejects immediately when the websocket
is not open; otherwise registers the pending request under the generated
`messageId` (an external random draw, passed in as a parameter) with a
timer deadline of `now + 30000`, then transmits. If the transmit throws
(`sendOk = false`), the timer is cleared and the entry deleted again. -/
def sendMessage (st : ConnState) (messageId : String) (now : Nat) (sendOk : Bool) :
    SendOutcome × ConnState :=
  if st.connected = false then (.failedNotConnected, st)
  else
    let registered := mapSet st.pending messageId ⟨now + requestTimeoutMs⟩
    if sendOk then (.sent, { st with pending := registered })
    else (.failedSendError, { st with pending := mapDelete registered messageId })

/-- The push-notification types with a registered handler
(`setupMessageHandlers`). -/
def pushHandlerTypes : List String :=
  ["simulator_frame", "build_output", "device_list", "error", "file_changed"]

/-- Dispatch of an inbound message that matches no pending request: to a
type-keyed push handler when one is registered, otherwise a log line. -/
def dispatchUnmatched (st : ConnState) (msg : ServerMessage) : ConnState × MessageAction :=
  (st, if pushHandlerTypes.contains msg.type
       then .pushHandled msg.type
       else .unhandledLogged msg.type)

/-- `ServerConnection.handleServerMessage`: a message whose `id` matches a
pending request clears that request's timer, removes it from the pending
set and settles it (rejected when the type tag is `error`, resolved
otherwise); any other message goes to the push-handler table. -/
def handleServerMessage (st : ConnState) (msg : ServerMessage) : ConnState × MessageAction :=
  match msg.id with
  | some i =>
    if (mapLookup st.pending i).isSome then
      ({ st with pending := mapDelete st.pending i },
       .settled i (if msg.type = "error" then .rejectedRemote msg.data else .resolvedData msg.data))
    else
      dispatchUnmatched st msg
  | none => dispatchUnmatched st msg

/-- The timeout callback registered by `sendMessage` for correlation id
`i`: it deletes the entry and rejects the promise with `Request timeout`.
`handleServerMessage` and `handleDisconnection` clear the timer whenever
they settle the request, so the callback only ever runs while the request
is still pending; a cleared timer is the `.timerNoop` branch. -/
def fireTimeout (st : ConnState) (i : String) : ConnState × MessageAction :=
  if (mapLookup st.pending i).isSome then
    ({ st with pending := mapDelete st.pending i }, .settled i .rejectedTimeout)
  else (st, .timerNoop)

/-- `ServerConnection.handleDisconnection`: clears every pending request's
timer, rejects each with `Connection closed`, and empties the pending set
(also dropping the connected flag). -/
def handleDisconnection (st : ConnState) : ConnState × List (String × Settlement) :=
  ({ connected := false, pending := [] },
   st.pending.map (fun e => (e.1, Settlement.rejectedClosed)))

/-!
## HotReloadService (reload orchestrator)

Embedding of the change queue, `analyzeChanges`, `getReloadStrategy`,
`performHotReload`, `triggerHotReload`, `handleConfigChange`,
`updateBuildCache`, `hashContent` and `updateConfiguration`. Strategy
execution talks to the remote executor, so the cycle takes an oracle
`execFail : Strategy → Option String` giving, per strategy, the message of
the error it throws (`none` = every request of the strategy succeeded);
response-carried payloads (incremental-build warnings) are external data
and are elided. Elapsed wall time is likewise a parameter. -/

/-- `HotReloadConfig` (source interface of the same name). -/
structure HotReloadConfig where
  enabled : Bool
  debounceDelay : Nat
  incrementalCompilation : Bool
  swiftUIPreviewMode : Bool
  autoSave : Bool
  excludePatterns : List String
deriving DecidableEq, Repr

/-- The initial configuration literal of the source. -/
def defaultHotReloadConfig : HotReloadConfig where
  enabled := true
  debounceDelay := 1000
  incrementalCompilation := true
  swiftUIPreviewMode := true
  autoSave := true
  excludePatterns := ["**/Tests/**", "**/*.test.swift"]

/-- TypeScript `Partial<HotReloadConfig>`: every field optional. -/
structure HotReloadConfigDelta where
  enabled : Option Bool := none
  debounceDelay : Option Nat := none
  incrementalCompilation : Option Bool := none
  swiftUIPreviewMode : Option Bool := none
  autoSave : Option Bool := none
  excludePatterns : Option (List String) := none
deriving DecidableEq, Repr

/-- `updateConfiguration`'s in-memory merge `\x7b ...this.config, ...newConfig \x7d`:
object spread, so a field present in the update wins and every other field
keeps its previous value. -/
def updateConfiguration (c : HotReloadConfig) (n : HotReloadConfigDelta) : HotReloadConfig where
  enabled := n.enabled.getD c.enabled
  debounceDelay := n.debounceDelay.getD c.debounceDelay
  incrementalCompilation := n.incrementalCompilation.getD c.incrementalCompilation
  swiftUIPreviewMode := n.swiftUIPreviewMode.getD c.swiftUIPreviewMode
  autoSave := n.autoSave.getD c.autoSave
  excludePatterns := n.excludePatterns.getD c.excludePatterns

/-- One value of the `changeQueue` map: `\x7b timestamp, content \x7d`.
(The queue entry stores no edit kind.) -/
structure QueueEntry where
  timestamp : Nat
  content : String
deriving DecidableEq, Repr

/-- The edit kind reported by the file watcher to `handleFileChange`. -/
inductive ChangeKind where
  | change
  | create
  | delete
deriving DecidableEq, Repr

/-- The queue update of `handleFileChange` (lines 139-153): for a delete no
content is read, so the empty string is captured; the record is upserted
under the path by `changeQueue.set`. The early returns of lines 120-128
(hot reload disabled, server disconnected, path excluded) mean no record
is made at all and are outside this queue-level operation. -/
def recordChange (q : List (String × QueueEntry)) (path : String) (kind : ChangeKind)
    (content : String) (now : Nat) : List (String × QueueEntry) :=
  mapSet q path ⟨now, if kind = .delete then "" else content⟩

/-- `ChangeAnalysis.type`. -/
inductive CType where
  | uiOnly
  | logic
  | structural
  | dependency
deriving DecidableEq, Repr

/-- `ChangeAnalysis` (source interface of the same name). -/
structure ChangeAnalysis where
  type : CType
  files : List String
  affectedComponents : List String
  requiresFullRebuild : Bool
  estimatedRebuildTime : Nat
deriving DecidableEq, Repr

/-- The SwiftUI-view test of `analyzeChanges`: path contains `View.swift`,
or the content contains `@State` or `View \x7b`. -/
def isUIMatch (filePath content : String) : Bool :=
  strContains filePath "View.swift" || strContains content "@State" ||
    strContains content "View \x7b"

/-- The structural-change test of `analyzeChanges`: the content contains
one of the declaration keywords. -/
def isStructuralMatch (content : String) : Bool :=
  strContains content "import " || strContains content "class " ||
    strContains content "struct " || strContains content "enum " ||
      strContains content "protocol "

/-- The dependency-change test of `analyzeChanges`: the path contains
`Package.swift` or the content contains `@main`. -/
def isDependencyMatch (filePath content : String) : Bool :=
  strContains filePath "Package.swift" || strContains content "@main"

/-- `path.basename(filePath, ".swift")`. -/
def basenameNoSwift (p : String) : String :=
  let base := (p.splitOn "/").getLastD p
  if base.endsWith ".swift" then base.dropRight 6 else base

/-- The loop body of `analyzeChanges` for one queued file: three
independent `if`s run in order (UI, structural, dependency), each
overwriting the running classification; the rebuild flag is only ever set. -/
def analyzeFold (acc : CType × Bool × List String) (e : String × QueueEntry) :
    CType × Bool × List String :=
  let a1 := if isUIMatch e.1 e.2.content
            then (CType.uiOnly, acc.2.1, acc.2.2 ++ [basenameNoSwift e.1])
            else acc
  let a2 := if isStructuralMatch e.2.content
            then (CType.structural, true, a1.2.2)
            else a1
  if isDependencyMatch e.1 e.2.content
  then (CType.dependency, true, a2.2.2)
  else a2

/-- `HotReloadService.analyzeChanges`: folds the queue in iteration order
starting from `logic`/no-rebuild, then derives the clamped time estimate. -/
def analyzeChanges (queue : List (String × QueueEntry)) : ChangeAnalysis :=
  let files := queue.map Prod.fst
  let acc := queue.foldl analyzeFold (CType.logic, false, [])
  let est := match acc.1 with
    | .uiOnly => min (files.length * 200) 2000
    | .logic => min (files.length * 500) 5000
    | .structural => min (files.length * 1000) 15000
    | .dependency => 30000
  { type := acc.1
    files := files
    affectedComponents := acc.2.2
    requiresFullRebuild := acc.2.1
    estimatedRebuildTime := est }

/-- The three reload strategies. -/
inductive Strategy where
  | swiftuiPreview
  | incremental
  | full
deriving DecidableEq, Repr

/-- The `changeType` label each strategy's success result carries. -/
def strategyLabel : Strategy → String
  | .swiftuiPreview => "SwiftUI Preview"
  | .incremental => "Incremental"
  | .full => "Full Rebuild"

/-- `HotReloadService.getReloadStrategy`. -/
def getReloadStrategy (cfg : HotReloadConfig) (a : ChangeAnalysis) : Strategy :=
  if a.type = CType.uiOnly && cfg.swiftUIPreviewMode && a.files.length ≤ 3 then
    .swiftuiPreview
  else if cfg.incrementalCompilation && !a.requiresFullRebuild && a.files.length ≤ 10 then
    .incremental
  else
    .full

/-- JavaScript `ToInt32`: wrap an integer into `[-2^31, 2^31)`. -/
def toInt32 (n : Int) : Int :=
  let m := n % 4294967296
  if m < 2147483648 then m else m - 4294967296

/-- `HotReloadService.hashContent`: `hash = (hash << 5) - hash + char`
with 32-bit wraparound (`hash & hash`), rendered in decimal. -/
def hashContent (content : String) : String :=
  (content.toList.foldl
    (fun h c => toInt32 (toInt32 (h * 32) - h + (c.toNat : Int))) 0).repr

/-- One `buildCache` value: `\x7b content, timestamp, hash \x7d`. -/
structure CacheEntry where
  content : String
  timestamp : Nat
  hash : String
deriving DecidableEq, Repr

/-- `HotReloadService.updateBuildCache` on the cache map: one `set` per
entry still in the change queue. -/
def updateBuildCache (cache : List (String × CacheEntry))
    (queue : List (String × QueueEntry)) : List (String × CacheEntry) :=
  queue.foldl
    (fun c e => mapSet c e.1 ⟨e.2.content, e.2.timestamp, hashContent e.2.content⟩)
    cache

/-- The `lastSuccessfulBuild` side of `updateBuildCache`. -/
def updateLastBuild (lastBuild : List (String × String))
    (queue : List (String × QueueEntry)) : List (String × String) :=
  queue.foldl (fun c e => mapSet c e.1 e.2.content) lastBuild

/-- `HotReloadResult` (source interface of the same name). -/
structure HotReloadResult where
  success : Bool
  duration : Nat
  changeType : String
  errors : Option (List String)
  warnings : Option (List String)
deriving DecidableEq, Repr

/-- The history append of the `finally` block: push, then shift the oldest
entry off once more than 50 are held. -/
def pushHistory (hist : List HotReloadResult) (r : HotReloadResult) : List HotReloadResult :=
  let h := hist ++ [r]
  if h.length > 50 then h.drop 1 else h

/-- The mutable state of one `HotReloadService` instance. An armed
debounce timer is `some (delay, forceFullRebuild)`. -/
structure HRState where
  config : HotReloadConfig
  changeQueue : List (String × QueueEntry)
  buildCache : List (String × CacheEntry)
  lastSuccessfulBuild : List (String × String)
  isReloading : Bool
  reloadHistory : List HotReloadResult
  debounceTimer : Option (Nat × Bool)
deriving DecidableEq, Repr

/-- The strategy-selection line of `performHotReload`: a forced cycle or a
rebuild-requiring analysis short-circuits to full, otherwise
`getReloadStrategy` decides. -/
def chosenStrategy (st : HRState) (force : Bool) : Strategy :=
  let analysis := analyzeChanges st.changeQueue
  if force || analysis.requiresFullRebuild then Strategy.full
  else getReloadStrategy st.config analysis

/-- `HotReloadService.performHotReload`: skip when a cycle is in progress;
otherwise analyze the queue, pick the strategy, execute it, and on success
update the build cache from the queue and clear the queue, on a strategy
throw build a failure result instead; the `finally` block clears the guard
and appends the result to the bounded history on both paths. -/
def performHotReload (st : HRState) (force : Bool) (execFail : Strategy → Option String)
    (elapsed : Nat) : HRState :=
  if st.isReloading then st
  else
    let strategy := chosenStrategy st force
    match execFail strategy with
    | none =>
      let result : HotReloadResult :=
        ⟨true, elapsed, strategyLabel strategy, none, none⟩
      { st with
        buildCache := updateBuildCache st.buildCache st.changeQueue
        lastSuccessfulBuild := updateLastBuild st.lastSuccessfulBuild st.changeQueue
        changeQueue := []
        isReloading := false
        reloadHistory := pushHistory st.reloadHistory result }
    | some msg =>
      let result : HotReloadResult := ⟨false, elapsed, "error", some [msg], none⟩
      { st with
        isReloading := false
        reloadHistory := pushHistory st.reloadHistory result }

/-- `HotReloadService.triggerHotReload`: clears any armed debounce timer
and arms a fresh one for `config.debounceDelay` milliseconds carrying the
force flag; the cycle itself runs only when that timer fires. -/
def triggerHotReload (st : HRState) (force : Bool) : HRState :=
  { st with debounceTimer := some (st.config.debounceDelay, force) }

/-- `HotReloadService.handleConfigChange`: clears the build cache, then
calls `triggerHotReload(true)`. -/
def handleConfigChange (st : HRState) : HRState :=
  triggerHotReload { st with buildCache := [] } true

/-- The armed debounce timer firing after its delay: runs
`performHotReload` with the stored force flag; the timeout is spent. -/
def fireDebounce (st : HRState) (execFail : Strategy → Option String) (elapsed : Nat) : HRState :=
  match st.debounceTimer with
  | some (_, force) => performHotReload { st with debounceTimer := none } force execFail elapsed
  | none => st

/-!
## Supporting lemmas
-/

theorem pushHistory_getLast (hist : List HotReloadResult) (r : HotReloadResult) :
    (pushHistory hist r).getLast? = some r := by
  unfold pushHistory
  dsimp only
  split
  · cases hist with
    | nil => simp_all
    | cons a t =>
      rw [List.cons_append, List.drop_one, List.tail_cons]
      exact List.getLast?_concat t
  · exact List.getLast?_concat hist

theorem updateBuildCache_lookup_not_mem (cache : List (String × CacheEntry))
    (queue : List (String × QueueEntry)) (p : String)
    (h : p ∉ queue.map Prod.fst) :
    mapLookup (updateBuildCache cache queue) p = mapLookup cache p := by
  induction queue generalizing cache with
  | nil => rfl
  | cons hd tl ih =>
    simp only [List.map_cons, List.mem_cons] at h
    push_neg at h
    simp only [updateBuildCache, List.foldl_cons]
    rw [show List.foldl
          (fun c e => mapSet c e.1 ⟨e.2.content, e.2.timestamp, hashContent e.2.content⟩)
          (mapSet cache hd.1 ⟨hd.2.content, hd.2.timestamp, hashContent hd.2.content⟩) tl
        = updateBuildCache
            (mapSet cache hd.1 ⟨hd.2.content, hd.2.timestamp, hashContent hd.2.content⟩) tl
        from rfl]
    rw [ih _ h.2]
    exact mapLookup_mapSet_ne _ _ _ _ (fun hh => h.1 hh.symm)

theorem updateBuildCache_lookup (cache : List (String × CacheEntry))
    (queue : List (String × QueueEntry)) (p : String) (e : QueueEntry)
    (hnd : (queue.map Prod.fst).Nodup)
    (h : mapLookup queue p = some e) :
    mapLookup (updateBuildCache cache queue) p
      = some ⟨e.content, e.timestamp, hashContent e.content⟩ := by
  induction queue generalizing cache with
  | nil => simp [mapLookup] at h
  | cons hd tl ih =>
    obtain ⟨k1, v1⟩ := hd
    simp only [List.map_cons, List.nodup_cons] at hnd
    simp only [updateBuildCache, List.foldl_cons]
    rw [show List.foldl
          (fun c e => mapSet c e.1 ⟨e.2.content, e.2.timestamp, hashContent e.2.content⟩)
          (mapSet cache k1 ⟨v1.content, v1.timestamp, hashContent v1.content⟩) tl
        = updateBuildCache
            (mapSet cache k1 ⟨v1.content, v1.timestamp, hashContent v1.content⟩) tl
        from rfl]
    by_cases h1 : k1 = p
    · subst h1
      simp only [mapLookup, eq_self_iff_true, if_true] at h
      cases h
      rw [updateBuildCache_lookup_not_mem _ _ _ hnd.1]
      exact mapLookup_mapSet_self _ _ _
    · simp only [mapLookup, if_neg h1] at h
      exact ih _ hnd.2 h

/-- A forced cycle on an idle state whose full strategy succeeds completes
with the `Full Rebuild` label as the newest history entry. -/
theorem performHotReload_forced_label (s2 : HRState) (execFail : Strategy → Option String)
    (elapsed : Nat) (hg : s2.isReloading = false)
    (hexec : execFail Strategy.full = none) :
    ((performHotReload s2 true execFail elapsed).reloadHistory.getLast?).map
      (fun r => r.changeType) = some "Full Rebuild" := by
  have hstrat : chosenStrategy s2 true = Strategy.full := by
    simp [chosenStrategy]
  have hred : performHotReload s2 true execFail elapsed
      = { s2 with
          buildCache := updateBuildCache s2.buildCache s2.changeQueue
          lastSuccessfulBuild := updateLastBuild s2.lastSuccessfulBuild s2.changeQueue
          changeQueue := []
          isReloading := false
          reloadHistory := pushHistory s2.reloadHistory
            ⟨true, elapsed, strategyLabel Strategy.full, none, none⟩ } := by
    unfold performHotReload
    rw [hg]
    dsimp only
    rw [hstrat, hexec]
    simp
  rw [hred]
  simp [pushHistory_getLast, strategyLabel]

/-!
## Claim theorems
-/

/-- Claim C1: at most one reload orchestration cycle is ever in progress —
a trigger that finds the `isReloading` guard set returns without changing
anything (no second cycle is started), and every cycle that does run,
whether its strategy succeeds or throws, ends with the guard cleared, so a
later trigger can start a new cycle. -/
theorem performHotReload_mutual_exclusion_and_guard_clear
    (st : HRState) (force : Bool) (execFail : Strategy → Option String) (elapsed : Nat) :
    (st.isReloading = true → performHotReload st force execFail elapsed = st) ∧
    (st.isReloading = false →
      (performHotReload st force execFail elapsed).isReloading = false) := by
  constructor
  · intro h
    simp [performHotReload, h]
  · intro h
    unfold performHotReload
    rw [h]
    simp only [Bool.false_eq_true, if_false]
    cases execFail (chosenStrategy st force) <;> simp

/-- Witness for C1 at concrete states: a guarded state is left untouched,
and an unguarded state ends its cycle with the guard cleared. -/
theorem performHotReload_guard_witness :
    performHotReload ⟨defaultHotReloadConfig, [], [], [], true, [], none⟩ false
        (fun _ => none) 3
      = ⟨defaultHotReloadConfig, [], [], [], true, [], none⟩ ∧
    (performHotReload ⟨defaultHotReloadConfig, [], [], [], false, [], none⟩ false
        (fun _ => none) 3).isReloading = false :=
  ⟨(performHotReload_mutual_exclusion_and_guard_clear
      ⟨defaultHotReloadConfig, [], [], [], true, [], none⟩ false (fun _ => none) 3).1 rfl,
   (performHotReload_mutual_exclusion_and_guard_clear
      ⟨defaultHotReloadConfig, [], [], [], false, [], none⟩ false (fun _ => none) 3).2 rfl⟩

/-- Claim C5: a send issued while the websocket is not open fails
immediately with the not-connected error and the state — in particular the
pending set — is exactly what it was before. -/
theorem sendMessage_notConnected
    (st : ConnState) (i : String) (now : Nat) (sendOk : Bool)
    (h : st.connected = false) :
    sendMessage st i now sendOk = (SendOutcome.failedNotConnected, st) := by
  simp [sendMessage, h]

/-- Witness for C5: a concrete disconnected send rejects and leaves the
one pending request untouched. -/
theorem sendMessage_notConnected_witness :
    sendMessage ⟨false, [("oldreq", ⟨90⟩)]⟩ "newreq" 5 true
      = (SendOutcome.failedNotConnected, ⟨false, [("oldreq", ⟨90⟩)]⟩) :=
  sendMessage_notConnected ⟨false, [("oldreq", ⟨90⟩)]⟩ "newreq" 5 true rfl

/-- Claim C7: when the transport connection is lost, every outstanding
pending request — however many there are — is rejected with the
connection-closed error, and the pending set is left empty. -/
theorem handleDisconnection_rejects_all (st : ConnState) :
    (handleDisconnection st).1.pending = [] ∧
    (handleDisconnection st).2.length = st.pending.length ∧
    (∀ p ∈ (handleDisconnection st).2, p.2 = Settlement.rejectedClosed) ∧
    (∀ q ∈ st.pending, (q.1, Settlement.rejectedClosed) ∈ (handleDisconnection st).2) := by
  refine ⟨rfl, by simp [handleDisconnection], ?_, ?_⟩
  · intro p hp
    simp only [handleDisconnection, List.mem_map] at hp
    obtain ⟨a, _, h2⟩ := hp
    rw [← h2]
  · intro q hq
    simpa [handleDisconnection] using
      List.mem_map_of_mem (fun e => (e.1, Settlement.rejectedClosed)) hq

/-- Witness for C7: the spec's scenario of a transport drop with three
requests pending — the pending set is emptied and each of the three ids is
rejected with the connection-closed error. -/
theorem handleDisconnection_witness :
    (handleDisconnection ⟨true, [("r1", ⟨10⟩), ("r2", ⟨20⟩), ("r3", ⟨30⟩)]⟩).1.pending = [] ∧
    (handleDisconnection ⟨true, [("r1", ⟨10⟩), ("r2", ⟨20⟩), ("r3", ⟨30⟩)]⟩).2.length = 3 ∧
    ("r2", Settlement.rejectedClosed)
      ∈ (handleDisconnection ⟨true, [("r1", ⟨10⟩), ("r2", ⟨20⟩), ("r3", ⟨30⟩)]⟩).2 :=
  ⟨(handleDisconnection_rejects_all ⟨true, [("r1", ⟨10⟩), ("r2", ⟨20⟩), ("r3", ⟨30⟩)]⟩).1,
   (handleDisconnection_rejects_all ⟨true, [("r1", ⟨10⟩), ("r2", ⟨20⟩), ("r3", ⟨30⟩)]⟩).2.1,
   (handleDisconnection_rejects_all ⟨true, [("r1", ⟨10⟩), ("r2", ⟨20⟩), ("r3", ⟨30⟩)]⟩).2.2.2
     ("r2", ⟨20⟩) (by decide)⟩

/-- Claim C10: the configuration merge takes every field named in the
update from the update and leaves every field not named in it exactly as
it was — no other configuration state changes. -/
theorem updateConfiguration_merge_frame (c : HotReloadConfig) (n : HotReloadConfigDelta) :
    ((∀ b, n.enabled = some b → (updateConfiguration c n).enabled = b) ∧
      (n.enabled = none → (updateConfiguration c n).enabled = c.enabled)) ∧
    ((∀ d, n.debounceDelay = some d → (updateConfiguration c n).debounceDelay = d) ∧
      (n.debounceDelay = none → (updateConfiguration c n).debounceDelay = c.debounceDelay)) ∧
    ((∀ b, n.incrementalCompilation = some b →
        (updateConfiguration c n).incrementalCompilation = b) ∧
      (n.incrementalCompilation = none →
        (updateConfiguration c n).incrementalCompilation = c.incrementalCompilation)) ∧
    ((∀ b, n.swiftUIPreviewMode = some b → (updateConfiguration c n).swiftUIPreviewMode = b) ∧
      (n.swiftUIPreviewMode = none →
        (updateConfiguration c n).swiftUIPreviewMode = c.swiftUIPreviewMode)) ∧
    ((∀ b, n.autoSave = some b → (updateConfiguration c n).autoSave = b) ∧
      (n.autoSave = none → (updateConfiguration c n).autoSave = c.autoSave)) ∧
    ((∀ ps, n.excludePatterns = some ps → (updateConfiguration c n).excludePatterns = ps) ∧
      (n.excludePatterns = none →
        (updateConfiguration c n).excludePatterns = c.excludePatterns)) :=
  ⟨⟨fun _ hb => by simp [updateConfiguration, hb], fun hn => by simp [updateConfiguration, hn]⟩,
   ⟨fun _ hb => by simp [updateConfiguration, hb], fun hn => by simp [updateConfiguration, hn]⟩,
   ⟨fun _ hb => by simp [updateConfiguration, hb], fun hn => by simp [updateConfiguration, hn]⟩,
   ⟨fun _ hb => by simp [updateConfiguration, hb], fun hn => by simp [updateConfiguration, hn]⟩,
   ⟨fun _ hb => by simp [updateConfiguration, hb], fun hn => by simp [updateConfiguration, hn]⟩,
   ⟨fun _ hb => by simp [updateConfiguration, hb], fun hn => by simp [updateConfiguration, hn]⟩⟩

/-- Witness for C10: merging an update that names only `enabled` and
`debounceDelay` into the default configuration takes those two fields from
the update and keeps the other four. -/
theorem updateConfiguration_merge_witness :
    (updateConfiguration defaultHotReloadConfig
        { enabled := some false, debounceDelay := some 250 }).enabled = false ∧
    (updateConfiguration defaultHotReloadConfig
        { enabled := some false, debounceDelay := some 250 }).debounceDelay = 250 ∧
    (updateConfiguration defaultHotReloadConfig
        { enabled := some false, debounceDelay := some 250 }).swiftUIPreviewMode
      = defaultHotReloadConfig.swiftUIPreviewMode ∧
    (updateConfiguration defaultHotReloadConfig
        { enabled := some false, debounceDelay := some 250 }).excludePatterns
      = defaultHotReloadConfig.excludePatterns :=
  ⟨(updateConfiguration_merge_frame defaultHotReloadConfig
      { enabled := some false, debounceDelay := some 250 }).1.1 false rfl,
   (updateConfiguration_merge_frame defaultHotReloadConfig
      { enabled := some false, debounceDelay := some 250 }).2.1.1 250 rfl,
   (updateConfiguration_merge_frame defaultHotReloadConfig
      { enabled := some false, debounceDelay := some 250 }).2.2.2.1.2 rfl,
   (updateConfiguration_merge_frame defaultHotReloadConfig
      { enabled := some false, debounceDelay := some 250 }).2.2.2.2.2.2 rfl⟩

/-- Counterexample to claim C2 as stated: a batch holding the project
manifest and an interface-only view file does NOT always classify as
`dependency` — with the manifest recorded first and the view file second,
`analyzeChanges` reports `ui-only` (the per-file reassignment lets the
later, less severe match overwrite the tag), although the rebuild flag
does stay forced. -/
theorem analyzeChanges_severity_counterexample :
    (analyzeChanges [("Package.swift", ⟨0, "import PackageDescription"⟩),
        ("LoginView.swift", ⟨1, "@State var x"⟩)]).type = CType.uiOnly ∧
    (analyzeChanges [("Package.swift", ⟨0, "import PackageDescription"⟩),
        ("LoginView.swift", ⟨1, "@State var x"⟩)]).type ≠ CType.dependency ∧
    (analyzeChanges [("Package.swift", ⟨0, "import PackageDescription"⟩),
        ("LoginView.swift", ⟨1, "@State var x"⟩)]).requiresFullRebuild = true :=
  ⟨by decide, by decide, by decide⟩

/-- Claim C2 as amended: the classification of a batch is order-dependent
— the last matching rule of the last matching file wins, while the
forced-rebuild flag, once set, survives. For a two-file batch of the
project manifest and an interface-only file (one matching only the UI
rule), the tag is `dependency` when the manifest comes second, but
`ui-only` when the interface file comes second; `forces full rebuild` is
true in both orders. -/
theorem analyzeChanges_order_dependent
    (pM cM pV cV : String) (tM tV : Nat)
    (hM : isDependencyMatch pM cM = true)
    (hV1 : isUIMatch pV cV = true)
    (hV2 : isStructuralMatch cV = false)
    (hV3 : isDependencyMatch pV cV = false) :
    (analyzeChanges [(pV, ⟨tV, cV⟩), (pM, ⟨tM, cM⟩)]).type = CType.dependency ∧
    (analyzeChanges [(pV, ⟨tV, cV⟩), (pM, ⟨tM, cM⟩)]).requiresFullRebuild = true ∧
    (analyzeChanges [(pM, ⟨tM, cM⟩), (pV, ⟨tV, cV⟩)]).type = CType.uiOnly ∧
    (analyzeChanges [(pM, ⟨tM, cM⟩), (pV, ⟨tV, cV⟩)]).requiresFullRebuild = true := by
  cases h1 : isUIMatch pM cM <;> cases h2 : isStructuralMatch cM <;>
    simp [analyzeChanges, analyzeFold, hM, hV1, hV2, hV3, h1, h2]

/-- Witness for the amended C2 at concrete files: manifest-last gives
`dependency`, view-last gives `ui-only`, rebuild forced either way. -/
theorem analyzeChanges_order_dependent_witness :
    (analyzeChanges [("LoginView.swift", ⟨1, "@State var x"⟩),
        ("Package.swift", ⟨0, "import PackageDescription"⟩)]).type = CType.dependency ∧
    (analyzeChanges [("LoginView.swift", ⟨1, "@State var x"⟩),
        ("Package.swift", ⟨0, "import PackageDescription"⟩)]).requiresFullRebuild = true ∧
    (analyzeChanges [("Package.swift", ⟨0, "import PackageDescription"⟩),
        ("LoginView.swift", ⟨1, "@State var x"⟩)]).type = CType.uiOnly ∧
    (analyzeChanges [("Package.swift", ⟨0, "import PackageDescription"⟩),
        ("LoginView.swift", ⟨1, "@State var x"⟩)]).requiresFullRebuild = true :=
  analyzeChanges_order_dependent "Package.swift" "import PackageDescription"
    "LoginView.swift" "@State var x" 0 1 (by decide) (by decide) (by decide) (by decide)

/-- Counterexample to claim C3 as stated: the correlation id is an
external random draw used without any collision check against the pending
set, so a send whose drawn id equals a currently-pending id succeeds and
silently replaces that pending request (deadline 100 overwritten by
30400) — the id is reused while still pending. -/
theorem sendMessage_id_reuse_counterexample :
    (sendMessage ⟨true, [("abcdefghi", ⟨100⟩)]⟩ "abcdefghi" 400 true).1
      = SendOutcome.sent ∧
    (sendMessage ⟨true, [("abcdefghi", ⟨100⟩)]⟩ "abcdefghi" 400 true).2.pending
      = [("abcdefghi", ⟨30400⟩)] :=
  ⟨by decide, by decide⟩

/-- Claim C3 as amended: the id attached to a send is a random token taken
with no collision check, but the pending map still holds at most one
request per id — a successful send leaves the id bound exactly once, to
the new request's 30-second deadline, with the key set still
duplicate-free (a colliding send therefore replaces the old request rather
than coexisting with it). -/
theorem sendMessage_pending_unique_per_id
    (st : ConnState) (i : String) (now : Nat)
    (h1 : st.connected = true) (h2 : (st.pending.map Prod.fst).Nodup) :
    (sendMessage st i now true).1 = SendOutcome.sent ∧
    mapLookup (sendMessage st i now true).2.pending i = some ⟨now + requestTimeoutMs⟩ ∧
    ((sendMessage st i now true).2.pending.map Prod.fst).Nodup ∧
    (sendMessage st i now true).2.pending.filter (fun e => decide (e.1 = i))
      = [(i, ⟨now + requestTimeoutMs⟩)] := by
  have hs : sendMessage st i now true
      = (SendOutcome.sent,
         { st with pending := mapSet st.pending i ⟨now + requestTimeoutMs⟩ }) := by
    simp [sendMessage, h1]
  rw [hs]
  exact ⟨rfl, mapLookup_mapSet_self _ _ _, mapSet_keys_nodup _ _ _ h2,
    filter_mapSet _ _ _ h2⟩

/-- Witness for the amended C3: a concrete connected send registers its id
exactly once with deadline `10 + 30000`. -/
theorem sendMessage_pending_unique_witness :
    (sendMessage ⟨true, [("other0001", ⟨50⟩)]⟩ "fresh0001" 10 true).1
      = SendOutcome.sent ∧
    mapLookup (sendMessage ⟨true, [("other0001", ⟨50⟩)]⟩ "fresh0001" 10 true).2.pending
        "fresh0001" = some ⟨30010⟩ ∧
    ((sendMessage ⟨true, [("other0001", ⟨50⟩)]⟩ "fresh0001" 10 true).2.pending.map
        Prod.fst).Nodup ∧
    (sendMessage ⟨true, [("other0001", ⟨50⟩)]⟩ "fresh0001" 10 true).2.pending.filter
        (fun e => decide (e.1 = "fresh0001")) = [("fresh0001", ⟨30010⟩)] :=
  sendMessage_pending_unique_per_id ⟨true, [("other0001", ⟨50⟩)]⟩ "fresh0001" 10
    rfl (by decide)

/-- Counterexample to claim C4 as stated: a queue entry carries no edit
kind at all, and for a second record of kind `delete` the captured content
is the empty string, not the passed content `c2` — recording a create of
"a" then a delete with content "b" leaves one record holding `""`. -/
theorem recordChange_delete_counterexample :
    recordChange (recordChange [] "A.swift" ChangeKind.create "a" 0)
        "A.swift" ChangeKind.delete "b" 1
      = [("A.swift", ⟨1, ""⟩)] ∧ ("" : String) ≠ "b" :=
  ⟨by decide, by decide⟩

/-- Claim C4 as amended: two records for the same path with no drain in
between coalesce to exactly one queue entry for that path (last write
wins, keys stay duplicate-free); the surviving entry stores the second
record's timestamp and its captured content — `c2` for a non-delete, the
empty string for a delete — and no edit-kind field. -/
theorem recordChange_last_write_wins
    (q : List (String × QueueEntry)) (path : String) (k1 k2 : ChangeKind)
    (c1 c2 : String) (t1 t2 : Nat)
    (h : (q.map Prod.fst).Nodup) :
    (recordChange (recordChange q path k1 c1 t1) path k2 c2 t2).filter
        (fun e => decide (e.1 = path))
      = [(path, ⟨t2, if k2 = ChangeKind.delete then "" else c2⟩)] ∧
    mapLookup (recordChange (recordChange q path k1 c1 t1) path k2 c2 t2) path
      = some ⟨t2, if k2 = ChangeKind.delete then "" else c2⟩ ∧
    ((recordChange (recordChange q path k1 c1 t1) path k2 c2 t2).map Prod.fst).Nodup := by
  have hn1 : ((recordChange q path k1 c1 t1).map Prod.fst).Nodup :=
    mapSet_keys_nodup q path ⟨t1, if k1 = ChangeKind.delete then "" else c1⟩ h
  exact ⟨filter_mapSet _ _ _ hn1, mapLookup_mapSet_self _ _ _,
    mapSet_keys_nodup _ _ _ hn1⟩

/-- Witness for the amended C4: two concrete change records on one path in
a queue that already holds another path — the path keeps exactly one
entry, with the second record's content and timestamp. -/
theorem recordChange_last_write_wins_witness :
    (recordChange (recordChange [("B.swift", ⟨9, "zz"⟩)] "A.swift" ChangeKind.create "a" 0)
        "A.swift" ChangeKind.change "b" 1).filter (fun e => decide (e.1 = "A.swift"))
      = [("A.swift", ⟨1, "b"⟩)] ∧
    mapLookup (recordChange (recordChange [("B.swift", ⟨9, "zz"⟩)]
        "A.swift" ChangeKind.create "a" 0) "A.swift" ChangeKind.change "b" 1) "A.swift"
      = some ⟨1, "b"⟩ ∧
    ((recordChange (recordChange [("B.swift", ⟨9, "zz"⟩)] "A.swift" ChangeKind.create "a" 0)
        "A.swift" ChangeKind.change "b" 1).map Prod.fst).Nodup :=
  recordChange_last_write_wins [("B.swift", ⟨9, "zz"⟩)] "A.swift"
    ChangeKind.create ChangeKind.change "a" "b" 0 1 (by decide)

/-- Claim C6: a pending request whose response never arrives is rejected
by its 30-second timer — the timer fires with a timeout rejection and the
id leaves the pending set — and a response arriving for an id no longer
pending leaves the state untouched and settles nothing (it is dispatched
to the push-handler table or logged), so no request is ever settled twice;
the deadline a send registers is exactly `now + 30000`. -/
theorem timeout_and_late_response
    (st : ConnState) (i : String) (e : PendingEntry) (msg : ServerMessage)
    (hnd : (st.pending.map Prod.fst).Nodup)
    (hp : mapLookup st.pending i = some e)
    (hid : msg.id = some i) :
    (fireTimeout st i).2 = MessageAction.settled i Settlement.rejectedTimeout ∧
    mapLookup (fireTimeout st i).1.pending i = none ∧
    (handleServerMessage (fireTimeout st i).1 msg).1 = (fireTimeout st i).1 ∧
    (∀ j s, (handleServerMessage (fireTimeout st i).1 msg).2 ≠ MessageAction.settled j s) ∧
    (∀ (st0 : ConnState) (now : Nat), st0.connected = true →
      mapLookup (sendMessage st0 i now true).2.pending i
        = some ⟨now + requestTimeoutMs⟩) := by
  have hfire : fireTimeout st i
      = ({ st with pending := mapDelete st.pending i },
         MessageAction.settled i Settlement.rejectedTimeout) := by
    simp [fireTimeout, hp]
  have hnone : mapLookup (mapDelete st.pending i) i = none :=
    mapLookup_mapDelete_self st.pending i hnd
  refine ⟨by rw [hfire], by rw [hfire]; exact hnone, ?_, ?_, ?_⟩
  · rw [hfire]
    simp [handleServerMessage, hid, hnone, dispatchUnmatched]
  · rw [hfire]
    intro j s
    simp only [handleServerMessage, hid, hnone]
    simp [dispatchUnmatched]
    split <;> simp
  · intro st0 now h0
    have hs : sendMessage st0 i now true
        = (SendOutcome.sent,
           { st0 with pending := mapSet st0.pending i ⟨now + requestTimeoutMs⟩ }) := by
      simp [sendMessage, h0]
    rw [hs]
    exact mapLookup_mapSet_self _ _ _

/-- Witness for C6: a concrete pending request is timed out and removed;
the late response for its id then settles nothing; and a fresh send at
time 0 registers deadline 30000. -/
theorem timeout_and_late_response_witness :
    (fireTimeout ⟨true, [("req000001", ⟨30010⟩)]⟩ "req000001").2
      = MessageAction.settled "req000001" Settlement.rejectedTimeout ∧
    mapLookup (fireTimeout ⟨true, [("req000001", ⟨30010⟩)]⟩ "req000001").1.pending
        "req000001" = none ∧
    (handleServerMessage (fireTimeout ⟨true, [("req000001", ⟨30010⟩)]⟩ "req000001").1
        ⟨"build_project_response", "ok", some "req000001"⟩).2
      ≠ MessageAction.settled "req000001" (Settlement.resolvedData "ok") ∧
    mapLookup (sendMessage ⟨true, []⟩ "req000001" 0 true).2.pending "req000001"
      = some ⟨30000⟩ :=
  ⟨(timeout_and_late_response ⟨true, [("req000001", ⟨30010⟩)]⟩ "req000001" ⟨30010⟩
      ⟨"build_project_response", "ok", some "req000001"⟩ (by decide) rfl rfl).1,
   (timeout_and_late_response ⟨true, [("req000001", ⟨30010⟩)]⟩ "req000001" ⟨30010⟩
      ⟨"build_project_response", "ok", some "req000001"⟩ (by decide) rfl rfl).2.1,
   (timeout_and_late_response ⟨true, [("req000001", ⟨30010⟩)]⟩ "req000001" ⟨30010⟩
      ⟨"build_project_response", "ok", some "req000001"⟩ (by decide) rfl rfl).2.2.2.1
     "req000001" (Settlement.resolvedData "ok"),
   (timeout_and_late_response ⟨true, [("req000001", ⟨30010⟩)]⟩ "req000001" ⟨30010⟩
      ⟨"build_project_response", "ok", some "req000001"⟩ (by decide) rfl rfl).2.2.2.2
     ⟨true, []⟩ 0 rfl⟩

/-- Counterexample to claim C8 as stated: a project-manifest change does
NOT bypass the debounce delay — on a quiescent state it runs no cycle at
all (history stays empty) and instead arms the debounce timer for the same
1000 ms delay ordinary `onChange` events use (with the force flag set). -/
theorem handleConfigChange_debounce_counterexample :
    (handleConfigChange ⟨defaultHotReloadConfig, [], [("Old.swift", ⟨"x", 1, "0"⟩)],
        [], false, [], none⟩).buildCache = [] ∧
    (handleConfigChange ⟨defaultHotReloadConfig, [], [("Old.swift", ⟨"x", 1, "0"⟩)],
        [], false, [], none⟩).debounceTimer = some (1000, true) ∧
    (handleConfigChange ⟨defaultHotReloadConfig, [], [("Old.swift", ⟨"x", 1, "0"⟩)],
        [], false, [], none⟩).reloadHistory = [] ∧
    defaultHotReloadConfig.debounceDelay = 1000 :=
  ⟨rfl, rfl, rfl, rfl⟩

/-- Claim C8 as amended: a project-manifest change clears the BuildCache
entirely and immediately arms the debounce timer (the ordinary
`config.debounceDelay`, not zero) with the force-full-rebuild flag; the
forced full-rebuild cycle runs only when that timer fires, and when it
does — the cache having been cleared before the cycle — it executes the
full strategy. -/
theorem handleConfigChange_clears_cache_and_arms_forced_timer
    (st : HRState) (execFail : Strategy → Option String) (elapsed : Nat)
    (h : st.isReloading = false) :
    (handleConfigChange st).buildCache = [] ∧
    (handleConfigChange st).debounceTimer = some (st.config.debounceDelay, true) ∧
    (handleConfigChange st).reloadHistory = st.reloadHistory ∧
    (execFail Strategy.full = none →
      ((fireDebounce (handleConfigChange st) execFail elapsed).reloadHistory.getLast?).map
          (fun r => r.changeType) = some "Full Rebuild") := by
  refine ⟨rfl, rfl, rfl, ?_⟩
  intro hexec
  have hfire : fireDebounce (handleConfigChange st) execFail elapsed
      = performHotReload { st with buildCache := [], debounceTimer := none }
          true execFail elapsed := rfl
  rw [hfire]
  exact performHotReload_forced_label _ execFail elapsed h hexec

/-- Witness for the amended C8: a concrete manifest change on an idle
state clears the cache, arms the forced 1000 ms timer, and the fired cycle
completes with the `Full Rebuild` label. -/
theorem handleConfigChange_witness :
    (handleConfigChange ⟨defaultHotReloadConfig, [("V.swift", ⟨2, "x"⟩)],
        [("Old.swift", ⟨"c", 1, "h"⟩)], [], false, [], none⟩).buildCache = [] ∧
    (handleConfigChange ⟨defaultHotReloadConfig, [("V.swift", ⟨2, "x"⟩)],
        [("Old.swift", ⟨"c", 1, "h"⟩)], [], false, [], none⟩).debounceTimer
      = some (1000, true) ∧
    ((fireDebounce (handleConfigChange ⟨defaultHotReloadConfig, [("V.swift", ⟨2, "x"⟩)],
        [("Old.swift", ⟨"c", 1, "h"⟩)], [], false, [], none⟩) (fun _ => none)
          4).reloadHistory.getLast?).map (fun r => r.changeType) = some "Full Rebuild" :=
  ⟨(handleConfigChange_clears_cache_and_arms_forced_timer
      ⟨defaultHotReloadConfig, [("V.swift", ⟨2, "x"⟩)], [("Old.swift", ⟨"c", 1, "h"⟩)],
       [], false, [], none⟩ (fun _ => none) 4 rfl).1,
   (handleConfigChange_clears_cache_and_arms_forced_timer
      ⟨defaultHotReloadConfig, [("V.swift", ⟨2, "x"⟩)], [("Old.swift", ⟨"c", 1, "h"⟩)],
       [], false, [], none⟩ (fun _ => none) 4 rfl).2.1,
   (handleConfigChange_clears_cache_and_arms_forced_timer
      ⟨defaultHotReloadConfig, [("V.swift", ⟨2, "x"⟩)], [("Old.swift", ⟨"c", 1, "h"⟩)],
       [], false, [], none⟩ (fun _ => none) 4 rfl).2.2.2 rfl⟩

/-- Counterexample to claim C9 as stated: when the strategy throws, the
cycle does NOT update the BuildCache for the batch — a one-file batch
whose strategy fails leaves the cache empty (no entry for the file),
though the failure result is still appended to the history. -/
theorem performHotReload_failure_cache_counterexample :
    (performHotReload ⟨defaultHotReloadConfig, [("A.swift", ⟨5, "let x = 1"⟩)],
        [], [], false, [], none⟩ false (fun _ => some "boom") 7).buildCache = [] ∧
    mapLookup (performHotReload ⟨defaultHotReloadConfig, [("A.swift", ⟨5, "let x = 1"⟩)],
        [], [], false, [], none⟩ false (fun _ => some "boom") 7).buildCache "A.swift"
      = none ∧
    (performHotReload ⟨defaultHotReloadConfig, [("A.swift", ⟨5, "let x = 1"⟩)],
        [], [], false, [], none⟩ false (fun _ => some "boom") 7).reloadHistory
      = [⟨false, 7, "error", some ["boom"], none⟩] :=
  ⟨rfl, rfl, rfl⟩

/-- Claim C9 as amended: at the end of a cycle a ReloadResult is appended
to the bounded history on success and failure alike, but the BuildCache is
updated (content, fingerprint, timestamp) for every path of the batch only
when the strategy succeeds; a strategy throw leaves the cache exactly as
it was. -/
theorem performHotReload_cache_and_history
    (st : HRState) (force : Bool) (execFail : Strategy → Option String) (elapsed : Nat)
    (h : st.isReloading = false)
    (hnd : (st.changeQueue.map Prod.fst).Nodup) :
    (execFail (chosenStrategy st force) = none →
      (∀ p e, mapLookup st.changeQueue p = some e →
        mapLookup (performHotReload st force execFail elapsed).buildCache p
          = some ⟨e.content, e.timestamp, hashContent e.content⟩) ∧
      (performHotReload st force execFail elapsed).reloadHistory.getLast?
        = some ⟨true, elapsed, strategyLabel (chosenStrategy st force), none, none⟩) ∧
    (∀ msg, execFail (chosenStrategy st force) = some msg →
      (performHotReload st force execFail elapsed).buildCache = st.buildCache ∧
      (performHotReload st force execFail elapsed).reloadHistory.getLast?
        = some ⟨false, elapsed, "error", some [msg], none⟩) := by
  constructor
  · intro hexec
    have hred : performHotReload st force execFail elapsed
        = { st with
            buildCache := updateBuildCache st.buildCache st.changeQueue
            lastSuccessfulBuild := updateLastBuild st.lastSuccessfulBuild st.changeQueue
            changeQueue := []
            isReloading := false
            reloadHistory := pushHistory st.reloadHistory
              ⟨true, elapsed, strategyLabel (chosenStrategy st force), none, none⟩ } := by
      unfold performHotReload
      rw [h]
      dsimp only
      rw [hexec]
      simp
    rw [hred]
    exact ⟨fun p e hpe => updateBuildCache_lookup _ _ _ _ hnd hpe,
      pushHistory_getLast _ _⟩
  · intro msg hexec
    have hred : performHotReload st force execFail elapsed
        = { st with
            isReloading := false
            reloadHistory := pushHistory st.reloadHistory
              ⟨false, elapsed, "error", some [msg], none⟩ } := by
      unfold performHotReload
      rw [h]
      dsimp only
      rw [hexec]
      simp
    rw [hred]
    exact ⟨rfl, pushHistory_getLast _ _⟩

/-- Witness for the amended C9: a successful one-file cycle puts the
file's content, timestamp and fingerprint into the cache and appends the
success result; the analysis is `logic`, so the default configuration
picks the incremental strategy. -/
theorem performHotReload_cache_history_witness :
    mapLookup (performHotReload ⟨defaultHotReloadConfig, [("A.swift", ⟨5, "let x = 1"⟩)],
        [], [], false, [], none⟩ false (fun _ => none) 7).buildCache "A.swift"
      = some ⟨"let x = 1", 5, hashContent "let x = 1"⟩ ∧
    (performHotReload ⟨defaultHotReloadConfig, [("A.swift", ⟨5, "let x = 1"⟩)],
        [], [], false, [], none⟩ false (fun _ => none) 7).reloadHistory.getLast?
      = some ⟨true, 7, "Incremental", none, none⟩ :=
  ⟨((performHotReload_cache_and_history
      ⟨defaultHotReloadConfig, [("A.swift", ⟨5, "let x = 1"⟩)], [], [], false, [], none⟩
      false (fun _ => none) 7 rfl (by decide)).1 rfl).1 "A.swift" ⟨5, "let x = 1"⟩ rfl,
   ((performHotReload_cache_and_history
      ⟨defaultHotReloadConfig, [("A.swift", ⟨5, "let x = 1"⟩)], [], [], false, [], none⟩
      false (fun _ => none) 7 rfl (by decide)).1 rfl).2⟩

end IosVSCode
